import Mathlib

/-!
Verification of the request-handling logic of a small HTTP service
(`src/main.py`): topic detection, brevity heuristic, prompt construction,
validation, rate limiting and upstream-error mapping.

Strings are modelled as Lean `String`s (lists of characters).  Python's
`str.lower`, `str.strip` and `str.split()` are modelled for ASCII case
mapping and ASCII whitespace; the keyword tables and fixed templates of the
source are ASCII, and ASCII case mapping agrees with Python's on every
character appearing in them.
-/

/-- ASCII lowercase mapping, modelling Python `str.lower` (restricted to
ASCII, which agrees with Python on the ASCII range). -/
def lowerChar (c : Char) : Char :=
  if 65 ≤ c.toNat ∧ c.toNat ≤ 90 then Char.ofNat (c.toNat + 32) else c

/-- Lower-case every character of a string (model of `message.lower()`). -/
def lowerStr (s : String) : String :=
  ⟨s.data.map lowerChar⟩

/-- ASCII whitespace, modelling the characters Python `str.strip` /
`str.split()` treat as whitespace. -/
def isPySpace (c : Char) : Bool :=
  c == ' ' || c == '\t' || c == '\n' || c == '\x0d' || c == '\x0b' || c == '\x0c'

/-- Model of Python `str.strip()`: drop leading and trailing whitespace. -/
def pyStrip (s : String) : String :=
  ⟨((s.data.dropWhile isPySpace).reverse.dropWhile isPySpace).reverse⟩

/-- Occurrence of `needle` as a contiguous substring of `hay`, modelling the
Python expression `needle in hay` on lists of characters. -/
def substrL (needle : List Char) : List Char → Bool
  | [] => needle.isEmpty
  | c :: rest => needle.isPrefixOf (c :: rest) || substrL needle rest

/-- String-level substring test (Python `needle in hay`). -/
def isSubstr (needle hay : String) : Bool :=
  substrL needle.data hay.data

/-- Number of maximal runs of non-whitespace characters; the Bool records
whether the previous character was inside a word. -/
def countWords : List Char → Bool → Nat
  | [], _ => 0
  | c :: rest, inWord =>
    if isPySpace c then countWords rest false
    else (if inWord then 0 else 1) + countWords rest true

/-- Model of `len(s.split())` for Python `str.split()` with no argument. -/
def wordCount (s : String) : Nat :=
  countWords s.data false

/-- The keyword table `KEY_TOPICS` of `src/main.py`, in its source order. -/
def KEY_TOPICS : List (String × List String) :=
  [("skills", ["skill", "tech", "technology", "stack", "tools", "programming",
               "languages", "framework"]),
   ("projects", ["project", "work", "experience", "build", "portfolio", "code", "app"]),
   ("personality", ["personality", "soft skills", "attitude", "work style",
                    "values", "philosophy"]),
   ("goals", ["goal", "dream", "startup", "vision", "future", "ambition", "career"]),
   ("languages", ["language", "speak", "fluent", "communication", "multilingual"]),
   ("general", [])]

/-- The loop body of `detect_topic`: first topic whose keyword list has a
member occurring in the (already lower-cased) message, else `"general"`. -/
def findTopic (msg : String) : List (String × List String) → String
  | [] => "general"
  | (topic, keywords) :: rest =>
    if keywords.any (fun w => isSubstr w msg) then topic else findTopic msg rest

/-- Model of `detect_topic` from `src/main.py`. -/
def detect_topic (message : String) : String :=
  findTopic (lowerStr message) KEY_TOPICS

/-- The keyword list `simple_keywords` of `is_simple_question`. -/
def simple_keywords : List String :=
  ["what", "who", "where", "when", "why", "how", "your name", "skill",
   "language", "hello"]

/-- Model of `is_simple_question` from `src/main.py`. -/
def is_simple_question (message : String) : Bool :=
  decide (wordCount (lowerStr message) ≤ 10) &&
    simple_keywords.any (fun kw => isSubstr kw (lowerStr message))


/-- The process-wide persona constant `LOUAI_BASE_CONTEXT` of `src/main.py`. -/
def LOUAI_BASE_CONTEXT : String :=
  "\nYou are Louai\x27s personal assistant, answering as Louai himself.\nAlways speak clearly, professionally, and concisely.\n\nLouai is a programming student based in Canada. He has hands-on experience with full-stack development, mainly using Python, FastAPI, PostgreSQL, React, and MongoDB.\nHe has built several real-world projects, including:\n- An AI-powered job matching platform\n- A digital library system with Stripe integration\n- A fitness coaching app\n\nLouai understands API development, authentication with JWT and OAuth, microservices using Docker/Kubernetes, and AI integration using OpenAI and NLP.\n\nHe communicates efficiently and focuses on facts, logic, and clarity.\nAvoid filler language, exaggeration, jokes, or informal tone.\n"

/-- The `length_instruction` conditional of the handler. -/
def length_instruction (simple : Bool) : String :=
  if simple then "Keep it short and direct (1-2 sentences)."
  else "Provide a professional and concise answer."

/-- The prompt-construction `if`/`elif` chain of the handler body in
`src/main.py` (lines 107-169), as a function of the detected topic, the
brevity flag and the raw message. -/
def build_prompt (topic : String) (simple : Bool) (message : String) : String :=
  let li := length_instruction simple
  if topic = "skills" then
    "\nThe question is about Louai\x27s technical skills.\n" ++ li ++
      "\n\nMention FastAPI, React, Python, JWT, Docker, CI/CD, and backend architecture.\n\nQuestion: " ++
      message ++ "\n"
  else if topic = "projects" then
    "\nThe question is about Louai\x27s project experience.\n" ++ li ++
      "\n\nRefer to:\n- AI job-matching platform\n- Digital library (Stripe)\n- Fitness app project\n\nKeep it factual and structured.\n\nQuestion: " ++
      message ++ "\n"
  else if topic = "personality" then
    "\nThe question is about Louai’s personal traits or mindset.\n" ++ li ++
      "\n\nMention his disciplined work ethic, logical thinking, and focus on intentional development.\n\nQuestion: " ++
      message ++ "\n"
  else if topic = "goals" then
    "\nThe question is about Louai\x27s future goals.\n" ++ li ++
      "\n\nState his plan to launch a remote-first startup, grow as a backend engineer, and build software with purpose.\n\nQuestion: " ++
      message ++ "\n"
  else if topic = "languages" then
    "\nThe question is about Louai’s language or communication skills.\n" ++ li ++
      "\n\nMention he\x27s fluent in English, French, and Spanish, and communicates effectively across teams.\n\nQuestion: " ++
      message ++ "\n"
  else
    "\nThe question is:\n" ++ message ++ "\n\n" ++ li ++
      "\n\nProvide a direct, informative, and professional answer as Louai.\n"

/-- HTTP-level outcome of a request: a 200 body or an error status with its
user-facing detail string. -/
inductive Resp where
  | ok (body : String)
  | err (status : Nat) (detail : String)
deriving DecidableEq, Repr

/-- One outbound chat-completion call: the system-role persona text and the
user-role prompt text (model `"gpt-4"`, temperature 0.5, max 300 tokens are
fixed in the source and carried implicitly). -/
structure GatewayCall where
  sys : String
  user : String
deriving DecidableEq, Repr

/-- Model of the body of the `about_me` handler (validation, topic
detection, brevity heuristic, prompt construction, gateway call,
error mapping).  The gateway is a parameter returning either the
completion text or an error message; the second component of the result is
the list of gateway calls actually made during the request. -/
def about_me (gw : GatewayCall → Except String String) (message : String) :
    Resp × List GatewayCall :=
  if pyStrip message = "" then
    (Resp.err 400 "Message cannot be empty.", [])
  else
    let topic := detect_topic message
    let simple := is_simple_question message
    let prompt := build_prompt topic simple message
    let call : GatewayCall := ⟨LOUAI_BASE_CONTEXT, prompt⟩
    match gw call with
    | Except.ok text => (Resp.ok (pyStrip text), [call])
    | Except.error _ =>
        (Resp.err 500 "Something went wrong while processing your request.", [call])

/-- Modelled from the spec: the rate limiter attached to `about_me`
(`@limiter.limit("5/minute")`, keyed by the client network address) is
third-party library code not present under `src/`; the spec describes a
rolling 60-second window capped at 5 accepted requests per client.  The
state is the list of timestamps (in seconds) of this client's previously
accepted requests; a request at `now` is admitted when fewer than 5
accepted requests lie inside the last 60 seconds. -/
def rateAllow (accepted : List Nat) (now : Nat) : Bool :=
  decide ((accepted.filter (fun t => decide (now < t + 60))).length < 5)

/-- Modelled from the spec: `POST /about-louai` for a single client — the
rate-limit check runs before the handler body; an admitted request records
its timestamp and runs `about_me`, a rejected one fails with HTTP 429 and
no gateway call. -/
def postAboutLouai (gw : GatewayCall → Except String String)
    (accepted : List Nat) (now : Nat) (message : String) :
    Resp × List GatewayCall × List Nat :=
  if rateAllow accepted now then
    ((about_me gw message).1, (about_me gw message).2, now :: accepted)
  else
    (Resp.err 429 "Rate limit exceeded", [], accepted)

/-- Run a sequence of requests from one client at the given timestamps,
threading the rate-limiter state; returns each request's response and the
gateway calls it made. -/
def runSeq (gw : GatewayCall → Except String String) (message : String) :
    List Nat → List Nat → List (Resp × List GatewayCall)
  | [], _ => []
  | t :: ts, accepted =>
    let out := postAboutLouai gw accepted t message
    (out.1, out.2.1) :: runSeq gw message ts out.2.2

/-- The liveness endpoint `GET /ping`: a constant handler returning the
one-field object with value `"pong"`; FastAPI's default success status for
such a return is 200.  It takes no input, consults no limiter state and no
gateway. -/
def ping_response : Nat × List (String × String) :=
  (200, [("message", "pong")])

/-- A concrete gateway that always succeeds (used to instantiate theorems
at concrete inputs). -/
def gwOk : GatewayCall → Except String String :=
  fun _ => Except.ok " pong "

/-- A concrete gateway that always fails (used to instantiate theorems at
concrete inputs). -/
def gwFail : GatewayCall → Except String String :=
  fun _ => Except.error "boom"

/-- Keyword list of a topic, looked up in `KEY_TOPICS`. -/
def topicKeywords (t : String) : List String :=
  match KEY_TOPICS.find? (fun p => p.1 == t) with
  | some p => p.2
  | none => []

/-- A topic matches a message when one of its keywords occurs in the
lower-cased message (the per-topic test of the `detect_topic` loop). -/
def topicMatches (t m : String) : Bool :=
  (topicKeywords t).any (fun w => isSubstr w (lowerStr m))

theorem substrL_iff (needle hay : List Char) :
    substrL needle hay = true ↔ needle <:+: hay := by
  induction hay with
  | nil =>
    simp [substrL, List.isEmpty_iff, List.infix_nil]
  | cons c rest ih =>
    simp [substrL, Bool.or_eq_true, ih, List.infix_cons_iff,
      List.isPrefixOf_iff_prefix]

theorem isSubstr_iff (needle hay : String) :
    isSubstr needle hay = true ↔ needle.data <:+: hay.data :=
  substrL_iff needle.data hay.data

theorem lowerChar_toNat_of_upper {c : Char} (h : 65 ≤ c.toNat ∧ c.toNat ≤ 90) :
    (lowerChar c).toNat = c.toNat + 32 := by
  have hv : (c.toNat + 32).isValidChar := Or.inl (by omega)
  unfold lowerChar
  rw [if_pos h, Char.ofNat, dif_pos hv]
  rfl

theorem lowerChar_idem (c : Char) : lowerChar (lowerChar c) = lowerChar c := by
  by_cases h : 65 ≤ c.toNat ∧ c.toNat ≤ 90
  · have ht := lowerChar_toNat_of_upper h
    rw [show lowerChar (lowerChar c) =
        (if 65 ≤ (lowerChar c).toNat ∧ (lowerChar c).toNat ≤ 90 then
          Char.ofNat ((lowerChar c).toNat + 32) else lowerChar c) from rfl]
    rw [if_neg (by rw [ht]; omega)]
  · have e : lowerChar c = c := by unfold lowerChar; exact if_neg h
    rw [e]
    exact e

theorem lowerStr_idem (s : String) : lowerStr (lowerStr s) = lowerStr s := by
  apply String.ext
  show (s.data.map lowerChar).map lowerChar = s.data.map lowerChar
  rw [List.map_map, show lowerChar ∘ lowerChar = lowerChar from funext lowerChar_idem]

theorem about_me_calls (gw : GatewayCall → Except String String) (m : String)
    (h : ¬ pyStrip m = "") :
    (about_me gw m).2 =
      [⟨LOUAI_BASE_CONTEXT, build_prompt (detect_topic m) (is_simple_question m) m⟩] := by
  simp only [about_me, if_neg h]
  cases gw ⟨LOUAI_BASE_CONTEXT,
      build_prompt (detect_topic m) (is_simple_question m) m⟩ <;> rfl

theorem isSubstr_of_parts (m pre post hay : String) (h : hay = pre ++ m ++ post) :
    isSubstr m hay = true := by
  subst h
  rw [isSubstr_iff, String.data_append, String.data_append]
  exact List.infix_append _ _ _

theorem build_prompt_contains (t : String) (s : Bool) (m : String) :
    isSubstr m (build_prompt t s m) = true := by
  simp only [build_prompt]
  split_ifs
  · exact isSubstr_of_parts m _ _ _ rfl
  · exact isSubstr_of_parts m _ _ _ rfl
  · exact isSubstr_of_parts m _ _ _ rfl
  · exact isSubstr_of_parts m _ _ _ rfl
  · exact isSubstr_of_parts m _ _ _ rfl
  · refine isSubstr_of_parts m "\nThe question is:\n"
      ("\n\n" ++ length_instruction s ++
        "\n\nProvide a direct, informative, and professional answer as Louai.\n") _ ?_
    apply String.ext
    simp [List.append_assoc]

theorem rateAllow_of_short (accepted : List Nat) (now : Nat)
    (h : accepted.length < 5) : rateAllow accepted now = true := by
  have hle := List.length_filter_le (fun t => decide (now < t + 60)) accepted
  simp only [rateAllow, decide_eq_true_iff]
  omega

theorem rateAllow_full (a b c d e now : Nat)
    (h1 : now < a + 60) (h2 : now < b + 60) (h3 : now < c + 60)
    (h4 : now < d + 60) (h5 : now < e + 60) :
    rateAllow [a, b, c, d, e] now = false := by
  simp [rateAllow, List.filter, h1, h2, h3, h4, h5]

/-- Claim C1: `detect_topic` tests the topics in the fixed order skills,
projects, personality, goals, languages and returns the first topic one of
whose keywords occurs as a contiguous substring of the lower-cased message;
when no keyword of any non-general topic occurs it returns `"general"`.
The first conjunct pins the meaning of `topicMatches` to substring
occurrence; the second is the first-match characterization. -/
theorem detect_topic_priority_spec (m : String) :
    (∀ t, topicMatches t m = true ↔
        ∃ kw ∈ topicKeywords t, kw.data <:+: (lowerStr m).data) ∧
    detect_topic m =
      (if topicMatches "skills" m then "skills"
       else if topicMatches "projects" m then "projects"
       else if topicMatches "personality" m then "personality"
       else if topicMatches "goals" m then "goals"
       else if topicMatches "languages" m then "languages"
       else "general") := by
  constructor
  · intro t
    simp [topicMatches, List.any_eq_true, isSubstr_iff]
  · rfl

/-- Claim C2, counterexample: on `"What languages do you speak?"` the
classifier does not return `"languages"` — the word `"languages"` is a
keyword of the earlier-tested `skills` topic, so the conjunction claimed by
the spec is false for this input. -/
theorem example_languages_question_not_languages :
    ¬ (detect_topic "What languages do you speak?" = "languages" ∧
       is_simple_question "What languages do you speak?" = true) := by
  decide

/-- Claim C2, amended: `"What languages do you speak?"` classifies as topic
`"skills"` (its substring `"languages"` is a skills keyword, and skills is
tested first), and `is_simple_question` returns true (5 tokens, contains
`"what"`). -/
theorem example_languages_question_skills :
    detect_topic "What languages do you speak?" = "skills" ∧
    is_simple_question "What languages do you speak?" = true := by
  decide

/-- Claim C3: `is_simple_question` returns true iff the whitespace-split
token count of the lower-cased message is at most 10 and some keyword of
the fixed list occurs as a substring of the lower-cased message; in
particular any message with more than 10 tokens yields false. -/
theorem is_simple_question_spec (m : String) :
    (is_simple_question m = true ↔
      wordCount (lowerStr m) ≤ 10 ∧
        ∃ kw ∈ simple_keywords, kw.data <:+: (lowerStr m).data) ∧
    (10 < wordCount (lowerStr m) → is_simple_question m = false) := by
  have hiff : is_simple_question m = true ↔
      wordCount (lowerStr m) ≤ 10 ∧
        ∃ kw ∈ simple_keywords, kw.data <:+: (lowerStr m).data := by
    simp [is_simple_question, List.any_eq_true, isSubstr_iff, Bool.and_eq_true,
      decide_eq_true_iff]
  refine ⟨hiff, fun hgt => ?_⟩
  by_cases hb : is_simple_question m
  · exact absurd (hiff.mp hb).1 (by omega)
  · simpa using hb

/-- Claim C4: a request whose message is empty after trimming is rejected
with HTTP 400 and the fixed detail text, for every gateway, and no gateway
call is made (the call trace is empty). -/
theorem about_me_empty_message_400 (gw : GatewayCall → Except String String)
    (m : String) (h : pyStrip m = "") :
    about_me gw m = (Resp.err 400 "Message cannot be empty.", []) := by
  simp only [about_me, if_pos h]

/-- Claim C4, witness at the whitespace-only message. -/
theorem about_me_empty_message_400_witness :
    pyStrip " \t " = "" ∧
    about_me gwFail " \t " = (Resp.err 400 "Message cannot be empty.", []) :=
  ⟨by decide, about_me_empty_message_400 gwFail " \t " (by decide)⟩

/-- Claim C5: whenever the gateway call fails — whatever the provider's
error text `e` — the handler's response is HTTP 500 whose detail is exactly
the fixed string, independent of `e`, so the provider's error text never
reaches the caller. -/
theorem about_me_upstream_failure_500 (gw : GatewayCall → Except String String)
    (m e : String) (hm : ¬ pyStrip m = "")
    (hfail : gw ⟨LOUAI_BASE_CONTEXT,
        build_prompt (detect_topic m) (is_simple_question m) m⟩ = Except.error e) :
    (about_me gw m).1 =
      Resp.err 500 "Something went wrong while processing your request." := by
  simp only [about_me, if_neg hm, hfail]

/-- Claim C5, witness with a failing gateway. -/
theorem about_me_upstream_failure_500_witness :
    (¬ pyStrip "hello" = "") ∧
    gwFail ⟨LOUAI_BASE_CONTEXT,
        build_prompt (detect_topic "hello") (is_simple_question "hello") "hello"⟩ =
      Except.error "boom" ∧
    (about_me gwFail "hello").1 =
      Resp.err 500 "Something went wrong while processing your request." :=
  ⟨by decide, rfl,
   about_me_upstream_failure_500 gwFail "hello" "boom" (by decide) rfl⟩

/-- Claim C6: six requests from one client at nondecreasing times all lying
inside one 60-second window, starting from a fresh limiter state: the first
five run the handler body (and, the message being non-empty, each attempts
the gateway call), while the sixth is rejected with HTTP 429 and makes no
gateway call. -/
theorem rate_limit_sixth_rejected (gw : GatewayCall → Except String String)
    (m : String) (t1 t2 t3 t4 t5 t6 : Nat)
    (h12 : t1 ≤ t2) (h23 : t2 ≤ t3) (h34 : t3 ≤ t4) (h45 : t4 ≤ t5)
    (h56 : t5 ≤ t6) (hwin : t6 < t1 + 60) (hm : ¬ pyStrip m = "") :
    runSeq gw m [t1, t2, t3, t4, t5, t6] [] =
      [about_me gw m, about_me gw m, about_me gw m, about_me gw m, about_me gw m,
       (Resp.err 429 "Rate limit exceeded", [])] ∧
    (about_me gw m).2 ≠ [] := by
  have e1 : rateAllow [] t1 = true := rateAllow_of_short _ _ (by simp)
  have e2 : rateAllow [t1] t2 = true := rateAllow_of_short _ _ (by simp)
  have e3 : rateAllow [t2, t1] t3 = true := rateAllow_of_short _ _ (by simp)
  have e4 : rateAllow [t3, t2, t1] t4 = true := rateAllow_of_short _ _ (by simp)
  have e5 : rateAllow [t4, t3, t2, t1] t5 = true := rateAllow_of_short _ _ (by simp)
  have e6 : rateAllow [t5, t4, t3, t2, t1] t6 = false :=
    rateAllow_full _ _ _ _ _ _ (by omega) (by omega) (by omega) (by omega) (by omega)
  constructor
  · simp [runSeq, postAboutLouai, e1, e2, e3, e4, e5, e6]
  · rw [about_me_calls gw m hm]
    simp

/-- Claim C6, witness: six requests at seconds 0..5 with a non-empty
message and an always-succeeding gateway. -/
theorem rate_limit_sixth_rejected_witness :
    ((0 : Nat) ≤ 1 ∧ (1 : Nat) ≤ 2 ∧ (2 : Nat) ≤ 3 ∧ (3 : Nat) ≤ 4 ∧
      (4 : Nat) ≤ 5 ∧ (5 : Nat) < 0 + 60 ∧ ¬ pyStrip "hi" = "") ∧
    (runSeq gwOk "hi" [0, 1, 2, 3, 4, 5] [] =
       [about_me gwOk "hi", about_me gwOk "hi", about_me gwOk "hi",
        about_me gwOk "hi", about_me gwOk "hi",
        (Resp.err 429 "Rate limit exceeded", [])] ∧
     (about_me gwOk "hi").2 ≠ []) :=
  ⟨by decide,
   rate_limit_sixth_rejected gwOk "hi" 0 1 2 3 4 5 (by decide) (by decide)
     (by decide) (by decide) (by decide) (by decide) (by decide)⟩

/-- Claim C7: prompt construction is deterministic and side-effect-free —
two runs of the handler on the same message, even against different
gateways (the only impure collaborator), produce exactly the same gateway
call, hence the same prompt text, which is a pure function of the detected
topic, the brevity flag and the message. -/
theorem about_me_prompt_deterministic (gw gw2 : GatewayCall → Except String String)
    (m : String) : (about_me gw m).2 = (about_me gw2 m).2 := by
  by_cases h : pyStrip m = ""
  · simp only [about_me, if_pos h]
  · rw [about_me_calls gw m h, about_me_calls gw2 m h]

/-- Claim C8: classification is case-insensitive — `detect_topic` returns
the same topic for a message and for its lower-cased form. -/
theorem detect_topic_case_insensitive (m : String) :
    detect_topic m = detect_topic (lowerStr m) := by
  unfold detect_topic
  rw [lowerStr_idem]

/-- Claim C9: `GET /ping` always returns status 200 with body
`[("message", "pong")]`; the handler is a closed constant with no
preconditions, no limiter state and no gateway dependency. -/
theorem ping_always_pong : ping_response = (200, [("message", "pong")]) := rfl

/-- Claim C10: for every accepted request (message non-empty after
trimming) the single gateway call carries the prompt built from the raw,
untrimmed message, and that raw message occurs verbatim as a contiguous
substring of the prompt. -/
theorem prompt_contains_verbatim_message (gw : GatewayCall → Except String String)
    (m : String) (h : ¬ pyStrip m = "") :
    (about_me gw m).2 =
      [⟨LOUAI_BASE_CONTEXT, build_prompt (detect_topic m) (is_simple_question m) m⟩] ∧
    m.data <:+: (build_prompt (detect_topic m) (is_simple_question m) m).data :=
  ⟨about_me_calls gw m h, (isSubstr_iff _ _).mp (build_prompt_contains _ _ m)⟩

/-- Claim C10, witness at a message with leading and trailing whitespace. -/
theorem prompt_contains_verbatim_message_witness :
    (¬ pyStrip " Hi  " = "") ∧
    ((about_me gwOk " Hi  ").2 =
      [⟨LOUAI_BASE_CONTEXT,
        build_prompt (detect_topic " Hi  ") (is_simple_question " Hi  ") " Hi  "⟩] ∧
     (" Hi  " : String).data <:+:
       (build_prompt (detect_topic " Hi  ") (is_simple_question " Hi  ") " Hi  ").data) :=
  ⟨by decide, prompt_contains_verbatim_message gwOk " Hi  " (by decide)⟩
